import Mathlib

/-!
Verification of the rate limiter (`src/utils/rateLimiter.ts`) and the
Turnstile widget component (`src/components/Turnstile.tsx`) of the
landing-page contact form.

The rate limiter is embedded as a pure function threading the module-level
`rateLimitMap` explicitly; `Date.now()` becomes an explicit `now : Int`
(milliseconds).  The Turnstile React component's effect is embedded as three
operations on an explicit DOM/page state: the effect body (`mountEffect`),
the `script.onload` handler (`fireOnload`) and the effect cleanup
(`cleanupEffect`).  The `onSubmit` handler of the contact form is embedded
up to the point where the webhook request would be issued (`onSubmitGate`);
the fetch itself is outside the model and is reached exactly on the
`proceed` outcome.
-/

/-- Entry of the rate-limit map: `interface RateLimitEntry` in
`rateLimiter.ts` (`count`, `firstRequest`). -/
structure RateLimitEntry where
  count : Nat
  firstRequest : Int
deriving DecidableEq

/-- Result of `checkRateLimit`: `allowed` plus the optional `retryAfter`. -/
structure RateLimitResult where
  allowed : Bool
  retryAfter : Option Int
deriving DecidableEq

/-- The module-level `rateLimitMap : Map<string, RateLimitEntry>`, embedded
extensionally as a partial function from identifiers to entries. -/
def RateLimitMap : Type := String → Option RateLimitEntry

/-- `rateLimitMap.set(k, v)`. -/
def mapSet (m : RateLimitMap) (k : String) (v : RateLimitEntry) : RateLimitMap :=
  fun k2 => if k2 = k then some v else m k2

/-- `WINDOW_MS = 60 * 1000`. -/
def WINDOW_MS : Int := 60 * 1000

/-- `MAX_REQUESTS = 3`. -/
def MAX_REQUESTS : Nat := 3

/-- `Math.ceil(num / 1000)` for an integer `num`, as used on line 20 of
`rateLimiter.ts` (JS `/` is real division, `Math.ceil` rounds up). -/
def jsCeilDiv1000 (num : Int) : Int := ⌈((num : ℚ) / 1000 : ℚ)⌉

/-- `checkRateLimit(identifier)` from `rateLimiter.ts`, with the map and the
clock passed explicitly; returns the result together with the updated map.
The JS `if (!entry || (now - entry.firstRequest) > WINDOW_MS)` is split into
the `none` case and the expired-window case, both executing the same reset. -/
def checkRateLimit (m : RateLimitMap) (identifier : String) (now : Int) :
    RateLimitResult × RateLimitMap :=
  match m identifier with
  | none => (⟨true, none⟩, mapSet m identifier ⟨1, now⟩)
  | some entry =>
    if now - entry.firstRequest > WINDOW_MS then
      (⟨true, none⟩, mapSet m identifier ⟨1, now⟩)
    else if entry.count ≥ MAX_REQUESTS then
      (⟨false, some (jsCeilDiv1000 (WINDOW_MS - (now - entry.firstRequest)))⟩, m)
    else
      (⟨true, none⟩, mapSet m identifier ⟨entry.count + 1, entry.firstRequest⟩)

/-- The empty `rateLimitMap` at module load. -/
def emptyRateLimitMap : RateLimitMap := fun _ => none

/-- Every stored entry has `1 ≤ count ≤ MAX_REQUESTS`. -/
def countInv (m : RateLimitMap) : Prop :=
  ∀ id e, m id = some e → 1 ≤ e.count ∧ e.count ≤ MAX_REQUESTS

/-!
Embedding of the `Turnstile` component (`src/components/Turnstile.tsx`).

`TSState` is the page-wide state the effect manipulates: the list of script
elements currently in `document.head`, the list of script elements whose
`onload` handler is still registered, and the list of widget handles created
by `window.turnstile.render` and never removed.  Fresh script-element and
widget-handle identities come from counters.  `TSInstance` is the
per-component-instance state: whether `containerRef.current` is non-null,
the `widgetIdRef` ref, and the script element this instance's effect created.
-/

/-- Page-wide DOM state seen by the component's effect. -/
structure TSState where
  head : List Nat
  onloadActive : List Nat
  liveWidgets : List Nat
  nextScript : Nat
  nextWidget : Nat
deriving DecidableEq

/-- Per-instance state: `containerRef`, `widgetIdRef`, and the script element
created by this instance's effect run. -/
structure TSInstance where
  containerPresent : Bool
  widgetIdRef : Option Nat
  script : Option Nat
deriving DecidableEq

/-- The effect body (lines 28–52 of `Turnstile.tsx`): if no site key is
configured it returns immediately; otherwise it creates a script element,
registers its `onload` handler, and appends it to `document.head`. -/
def mountEffect (siteKeyConfigured : Bool) (st : TSState) (inst : TSInstance) :
    TSState × TSInstance :=
  if siteKeyConfigured then
    ({ st with head := st.head ++ [st.nextScript],
               onloadActive := st.onloadActive ++ [st.nextScript],
               nextScript := st.nextScript + 1 },
     { inst with script := some st.nextScript })
  else (st, inst)

/-- The `script.onload` handler body (lines 41–50): if `containerRef.current`
is non-null and `window.turnstile` is available, call
`window.turnstile.render` — which creates a fresh widget handle — and store
the handle in `widgetIdRef`; otherwise do nothing. -/
def fireOnload (turnstileAvailable : Bool) (st : TSState) (inst : TSInstance) :
    TSState × TSInstance :=
  if inst.containerPresent && turnstileAvailable then
    ({ st with liveWidgets := st.liveWidgets ++ [st.nextWidget],
               nextWidget := st.nextWidget + 1 },
     { inst with widgetIdRef := some st.nextWidget })
  else (st, inst)

/-- The effect cleanup (lines 54–58): if `document.head` still contains the
script element this effect created, remove it.  Nothing else is touched. -/
def cleanupEffect (st : TSState) (inst : TSInstance) : TSState × TSInstance :=
  match inst.script with
  | some s => if s ∈ st.head then ({ st with head := st.head.erase s }, inst) else (st, inst)
  | none => (st, inst)

/-- Initial page state: empty head, no registered handlers, no widgets. -/
def tsInit : TSState := ⟨[], [], [], 0, 0⟩

/-- A freshly constructed instance whose container div is attached. -/
def instInit : TSInstance := ⟨true, none, none⟩

/-- Outcome of the `onSubmit` handler of `ContactForm`, up to the webhook
request.  `proceed` is the only path on which the fetch is issued; its flag
records whether the payload spread includes the `turnstileToken` field. -/
inductive SubmitOutcome where
  | rateLimited (retryAfter : Option Int)
  | verificationIncomplete
  | configurationError
  | proceed (tokenIncluded : Bool)
deriving DecidableEq

/-- The environment values consulted by `onSubmit` and the widget:
`PUBLIC_TURNSTILE_SITE_KEY`, `PUBLIC_N8N_WEBHOOK_URL`,
`PUBLIC_N8N_WEBHOOK_SECRET` (an unset variable is the empty string). -/
structure SubmitConfig where
  turnstileSiteKey : String
  webhookUrl : String
  webhookSecret : String

/-- JS truthiness of a string: the empty string is falsy. -/
def jsTruthy (s : String) : Bool := !(s == "")

/-- Truthiness of the `turnstileToken` React state (`string | null`,
initially `null`). -/
def tokenTruthy : Option String → Bool
  | none => false
  | some s => jsTruthy s

/-- The guard sequence of `onSubmit` in the contact form: the rate limiter
is consulted first; then the Turnstile check
`turnstileSiteKey && !turnstileToken`; then the webhook configuration check
`!url || !secret`; only past all three is the webhook request made. -/
def onSubmitGate (cfg : SubmitConfig) (m : RateLimitMap) (clientId : String) (now : Int)
    (turnstileToken : Option String) : SubmitOutcome × RateLimitMap :=
  let r := checkRateLimit m clientId now
  if r.1.allowed = false then
    (SubmitOutcome.rateLimited r.1.retryAfter, r.2)
  else if jsTruthy cfg.turnstileSiteKey && !(tokenTruthy turnstileToken) then
    (SubmitOutcome.verificationIncomplete, r.2)
  else if !(jsTruthy cfg.webhookUrl) || !(jsTruthy cfg.webhookSecret) then
    (SubmitOutcome.configurationError, r.2)
  else
    (SubmitOutcome.proceed (tokenTruthy turnstileToken), r.2)

-- Branch lemmas for `checkRateLimit`, shared by the claim proofs.

/-- Fresh identifier: reset branch. -/
theorem checkRateLimit_none (m : RateLimitMap) (id : String) (now : Int)
    (h : m id = none) :
    checkRateLimit m id now = (⟨true, none⟩, mapSet m id ⟨1, now⟩) := by
  simp [checkRateLimit, h]

/-- Expired window: reset branch. -/
theorem checkRateLimit_expired (m : RateLimitMap) (id : String) (now : Int)
    (e : RateLimitEntry) (h : m id = some e) (hw : now - e.firstRequest > WINDOW_MS) :
    checkRateLimit m id now = (⟨true, none⟩, mapSet m id ⟨1, now⟩) := by
  simp [checkRateLimit, h, hw]

/-- Quota exhausted inside the window: reject branch. -/
theorem checkRateLimit_reject (m : RateLimitMap) (id : String) (now : Int)
    (e : RateLimitEntry) (h : m id = some e) (hw : ¬ now - e.firstRequest > WINDOW_MS)
    (hc : e.count ≥ MAX_REQUESTS) :
    checkRateLimit m id now =
      (⟨false, some (jsCeilDiv1000 (WINDOW_MS - (now - e.firstRequest)))⟩, m) := by
  simp [checkRateLimit, h, hw, hc]

/-- Inside the window with quota left: increment branch. -/
theorem checkRateLimit_inc (m : RateLimitMap) (id : String) (now : Int)
    (e : RateLimitEntry) (h : m id = some e) (hw : ¬ now - e.firstRequest > WINDOW_MS)
    (hc : ¬ e.count ≥ MAX_REQUESTS) :
    checkRateLimit m id now = (⟨true, none⟩, mapSet m id ⟨e.count + 1, e.firstRequest⟩) := by
  simp [checkRateLimit, h, hw, hc]

/-- Reading back the key just written. -/
theorem mapSet_self (m : RateLimitMap) (k : String) (v : RateLimitEntry) :
    mapSet m k v k = some v := by
  simp [mapSet]

/-- C1: for a fresh identifier, the first three calls whose timestamps fall
within 60 seconds of the first call each return `allowed = true`, and the
fourth call within that same 60-second window returns `allowed = false`. -/
theorem rateLimit_three_allowed_fourth_rejected
    (m : RateLimitMap) (id : String) (t1 t2 t3 t4 : Int)
    (h0 : m id = none)
    (h2 : t1 ≤ t2 ∧ t2 ≤ t1 + 60000)
    (h3 : t1 ≤ t3 ∧ t3 ≤ t1 + 60000)
    (h4 : t1 ≤ t4 ∧ t4 ≤ t1 + 60000) :
    (checkRateLimit m id t1).1.allowed = true ∧
    (checkRateLimit (checkRateLimit m id t1).2 id t2).1.allowed = true ∧
    (checkRateLimit (checkRateLimit (checkRateLimit m id t1).2 id t2).2 id t3).1.allowed
      = true ∧
    (checkRateLimit
      (checkRateLimit (checkRateLimit (checkRateLimit m id t1).2 id t2).2 id t3).2
      id t4).1.allowed = false := by
  have w2 : ¬ t2 - t1 > WINDOW_MS := by show ¬ t2 - t1 > (60 * 1000 : Int); omega
  have w3 : ¬ t3 - t1 > WINDOW_MS := by show ¬ t3 - t1 > (60 * 1000 : Int); omega
  have w4 : ¬ t4 - t1 > WINDOW_MS := by show ¬ t4 - t1 > (60 * 1000 : Int); omega
  have e1 := checkRateLimit_none m id t1 h0
  have e2 := checkRateLimit_inc (mapSet m id ⟨1, t1⟩) id t2 ⟨1, t1⟩
    (mapSet_self m id ⟨1, t1⟩) w2 (by simp [MAX_REQUESTS])
  have e3 := checkRateLimit_inc (mapSet (mapSet m id ⟨1, t1⟩) id ⟨2, t1⟩) id t3 ⟨2, t1⟩
    (mapSet_self _ id ⟨2, t1⟩) w3 (by simp [MAX_REQUESTS])
  have e4 := checkRateLimit_reject
    (mapSet (mapSet (mapSet m id ⟨1, t1⟩) id ⟨2, t1⟩) id ⟨3, t1⟩) id t4 ⟨3, t1⟩
    (mapSet_self _ id ⟨3, t1⟩) w4 (by simp [MAX_REQUESTS])
  simp [e1, e2, e3, e4]

/-- Witness for C1: identifier `X`, calls at 0s, 20s, 40s, 60s. -/
theorem rateLimit_three_allowed_fourth_rejected_witness :
    emptyRateLimitMap "X" = none ∧
    ((checkRateLimit emptyRateLimitMap "X" 0).1.allowed = true ∧
     (checkRateLimit (checkRateLimit emptyRateLimitMap "X" 0).2 "X" 20000).1.allowed = true ∧
     (checkRateLimit (checkRateLimit (checkRateLimit emptyRateLimitMap "X" 0).2 "X"
        20000).2 "X" 40000).1.allowed = true ∧
     (checkRateLimit (checkRateLimit (checkRateLimit (checkRateLimit emptyRateLimitMap "X"
        0).2 "X" 20000).2 "X" 40000).2 "X" 60000).1.allowed = false) :=
  ⟨rfl, rateLimit_three_allowed_fourth_rejected emptyRateLimitMap "X" 0 20000 40000 60000
    rfl ⟨by norm_num, by norm_num⟩ ⟨by norm_num, by norm_num⟩ ⟨by norm_num, by norm_num⟩⟩

/-- C2: whenever `checkRateLimit` rejects (entry in the map, window not
expired, count at the maximum), the result is `allowed = false` with
`retryAfter = ceil((60000 - (now - firstRequest)) / 1000)` seconds. -/
theorem rateLimit_reject_retryAfter (m : RateLimitMap) (id : String) (now : Int)
    (entry : RateLimitEntry) (h : m id = some entry)
    (hw : ¬ now - entry.firstRequest > WINDOW_MS) (hc : entry.count ≥ MAX_REQUESTS) :
    (checkRateLimit m id now).1.allowed = false ∧
    (checkRateLimit m id now).1.retryAfter =
      some ⌈(((60000 : Int) - (now - entry.firstRequest) : ℚ)) / 1000⌉ := by
  rw [checkRateLimit_reject m id now entry h hw hc]
  refine ⟨rfl, ?_⟩
  simp only [jsCeilDiv1000, WINDOW_MS]
  norm_num

/-- Witness for C2: requests from `X` at t = 0, 1, 2, 3 seconds; the fourth
call is rejected with `retryAfter = 57`. -/
theorem rateLimit_reject_retryAfter_witness :
    ((checkRateLimit (checkRateLimit (checkRateLimit emptyRateLimitMap "X" 0).2 "X"
        1000).2 "X" 2000).2) "X" = some ⟨3, 0⟩ ∧
    (checkRateLimit ((checkRateLimit (checkRateLimit (checkRateLimit emptyRateLimitMap "X"
        0).2 "X" 1000).2 "X" 2000).2) "X" 3000).1.allowed = false ∧
    (checkRateLimit ((checkRateLimit (checkRateLimit (checkRateLimit emptyRateLimitMap "X"
        0).2 "X" 1000).2 "X" 2000).2) "X" 3000).1.retryAfter = some 57 := by
  have hm : ((checkRateLimit (checkRateLimit (checkRateLimit emptyRateLimitMap "X" 0).2
      "X" 1000).2 "X" 2000).2) "X" = some ⟨3, 0⟩ := by
    simp [checkRateLimit, mapSet, emptyRateLimitMap, WINDOW_MS, MAX_REQUESTS]
  have h := rateLimit_reject_retryAfter _ "X" 3000 ⟨3, 0⟩ hm
    (by simp [WINDOW_MS]) (by simp [MAX_REQUESTS])
  refine ⟨hm, h.1, ?_⟩
  rw [h.2]
  norm_num

/-- C3: a call strictly more than 60 seconds after the stored entry's first
request is allowed and replaces the entry with count 1 and first request
`now`; all other identifiers are untouched. -/
theorem rateLimit_window_reset (m : RateLimitMap) (id : String) (now : Int)
    (entry : RateLimitEntry) (h : m id = some entry)
    (hw : now - entry.firstRequest > WINDOW_MS) :
    (checkRateLimit m id now).1.allowed = true ∧
    (checkRateLimit m id now).2 id = some ⟨1, now⟩ ∧
    (∀ k, k ≠ id → (checkRateLimit m id now).2 k = m k) := by
  rw [checkRateLimit_expired m id now entry h hw]
  exact ⟨rfl, mapSet_self m id ⟨1, now⟩, fun k hk => by simp [mapSet, hk]⟩

/-- Witness for C3: entry `X` exhausted at first request 0; a call at 61
seconds is allowed and starts a fresh window. -/
theorem rateLimit_window_reset_witness :
    (mapSet emptyRateLimitMap "X" ⟨3, 0⟩) "X" = some ⟨3, 0⟩ ∧
    (checkRateLimit (mapSet emptyRateLimitMap "X" ⟨3, 0⟩) "X" 61000).1.allowed = true ∧
    (checkRateLimit (mapSet emptyRateLimitMap "X" ⟨3, 0⟩) "X" 61000).2 "X"
      = some ⟨1, 61000⟩ := by
  have h := rateLimit_window_reset (mapSet emptyRateLimitMap "X" ⟨3, 0⟩) "X" 61000 ⟨3, 0⟩
    (mapSet_self emptyRateLimitMap "X" ⟨3, 0⟩) (by simp [WINDOW_MS])
  exact ⟨mapSet_self emptyRateLimitMap "X" ⟨3, 0⟩, h.1, h.2.1⟩

/-- C9: a rejected call is atomic: when `checkRateLimit` rejects, the map is
returned unchanged, so the stored entry is not modified. -/
theorem rateLimit_reject_atomic (m : RateLimitMap) (id : String) (now : Int)
    (entry : RateLimitEntry) (h : m id = some entry)
    (hw : ¬ now - entry.firstRequest > WINDOW_MS) (hc : entry.count ≥ MAX_REQUESTS) :
    (checkRateLimit m id now).1.allowed = false ∧
    (checkRateLimit m id now).2 = m := by
  rw [checkRateLimit_reject m id now entry h hw hc]
  exact ⟨rfl, rfl⟩

/-- Witness for C9: rejecting `X` at 30 seconds with a full entry leaves the
map identical. -/
theorem rateLimit_reject_atomic_witness :
    (mapSet emptyRateLimitMap "X" ⟨3, 5⟩) "X" = some ⟨3, 5⟩ ∧
    (checkRateLimit (mapSet emptyRateLimitMap "X" ⟨3, 5⟩) "X" 30000).1.allowed = false ∧
    (checkRateLimit (mapSet emptyRateLimitMap "X" ⟨3, 5⟩) "X" 30000).2
      = mapSet emptyRateLimitMap "X" ⟨3, 5⟩ := by
  have h := rateLimit_reject_atomic (mapSet emptyRateLimitMap "X" ⟨3, 5⟩) "X" 30000 ⟨3, 5⟩
    (mapSet_self emptyRateLimitMap "X" ⟨3, 5⟩) (by simp [WINDOW_MS]) (by simp [MAX_REQUESTS])
  exact ⟨mapSet_self emptyRateLimitMap "X" ⟨3, 5⟩, h.1, h.2⟩

/-- C10: the bound `1 ≤ count ≤ 3` on every stored entry is preserved by
every call to `checkRateLimit`: entries are created with count 1 and
incremented only when strictly below the maximum. -/
theorem rateLimit_count_invariant (m : RateLimitMap) (id : String) (now : Int)
    (hinv : countInv m) : countInv (checkRateLimit m id now).2 := by
  intro k e hk
  cases hm : m id with
  | none =>
    rw [checkRateLimit_none m id now hm] at hk
    simp only [mapSet] at hk
    split at hk
    · obtain rfl : (⟨1, now⟩ : RateLimitEntry) = e := Option.some.inj hk
      exact ⟨le_refl 1, by simp [MAX_REQUESTS]⟩
    · exact hinv k e hk
  | some entry =>
    by_cases hw : now - entry.firstRequest > WINDOW_MS
    · rw [checkRateLimit_expired m id now entry hm hw] at hk
      simp only [mapSet] at hk
      split at hk
      · obtain rfl : (⟨1, now⟩ : RateLimitEntry) = e := Option.some.inj hk
        exact ⟨le_refl 1, by simp [MAX_REQUESTS]⟩
      · exact hinv k e hk
    · by_cases hc : entry.count ≥ MAX_REQUESTS
      · rw [checkRateLimit_reject m id now entry hm hw hc] at hk
        exact hinv k e hk
      · rw [checkRateLimit_inc m id now entry hm hw hc] at hk
        simp only [mapSet] at hk
        split at hk
        · obtain rfl : (⟨entry.count + 1, entry.firstRequest⟩ : RateLimitEntry) = e :=
            Option.some.inj hk
          simp only [MAX_REQUESTS] at hc ⊢
          exact ⟨by omega, by omega⟩
        · exact hinv k e hk

/-- Witness for C10: the invariant holds for the empty map and is carried to
the map produced by a first call. -/
theorem rateLimit_count_invariant_witness :
    countInv emptyRateLimitMap ∧ countInv (checkRateLimit emptyRateLimitMap "X" 0).2 := by
  have h0 : countInv emptyRateLimitMap := fun k e hk => by
    simp [emptyRateLimitMap] at hk
  exact ⟨h0, rateLimit_count_invariant emptyRateLimitMap "X" 0 h0⟩

/-- C4 counterexample: mounting two component instances with a configured
site key injects TWO script elements into `document.head`, not one — the
effect has no page-wide deduplication. -/
theorem script_injection_not_unique
    : (mountEffect true (mountEffect true tsInit instInit).1 instInit).1.head.length = 2 ∧
      ¬ (mountEffect true (mountEffect true tsInit instInit).1 instInit).1.head.length = 1 := by
  decide

/-- C4 amended: every mount with a configured site key appends exactly one
script element to the head (one injection per mounted instance), and a mount
without a site key injects nothing. -/
theorem script_injection_per_mount (st : TSState) (inst : TSInstance) :
    (mountEffect true st inst).1.head.length = st.head.length + 1 ∧
    mountEffect false st inst = (st, inst) := by
  simp [mountEffect]

/-- C5 counterexample: invoking the render callback twice on the same
instance, without an intervening unmount, creates TWO widget handles — there
is no outstanding-handle guard. -/
theorem render_twice_not_single_handle
    : (fireOnload true (fireOnload true tsInit instInit).1
        (fireOnload true tsInit instInit).2).1.liveWidgets.length = 2 ∧
      ¬ (fireOnload true (fireOnload true tsInit instInit).1
        (fireOnload true tsInit instInit).2).1.liveWidgets.length = 1 := by
  decide

/-- C5 amended: each render-callback invocation with the container attached
and the loader available creates a fresh widget handle; two invocations
create two handles and `widgetIdRef` ends up holding the second one. -/
theorem render_twice_two_handles (st : TSState) (inst : TSInstance)
    (h : inst.containerPresent = true) :
    (fireOnload true (fireOnload true st inst).1
        (fireOnload true st inst).2).1.liveWidgets.length = st.liveWidgets.length + 2 ∧
    (fireOnload true (fireOnload true st inst).1
        (fireOnload true st inst).2).2.widgetIdRef = some (st.nextWidget + 1) := by
  simp [fireOnload, h]

/-- Witness for C5 amended: two callback invocations on a fresh attached
instance yield two live widgets, the ref holding handle 1. -/
theorem render_twice_two_handles_witness :
    instInit.containerPresent = true ∧
    (fireOnload true (fireOnload true tsInit instInit).1
        (fireOnload true tsInit instInit).2).1.liveWidgets.length = 2 ∧
    (fireOnload true (fireOnload true tsInit instInit).1
        (fireOnload true tsInit instInit).2).2.widgetIdRef = some 1 := by
  have h := render_twice_two_handles tsInit instInit rfl
  exact ⟨rfl, h.1, h.2⟩

/-- C6 counterexample: mount, render, then run the effect cleanup.  The
widget handle is still live (the cleanup never calls into the loader to
remove it) and the script's `onload` handler is still registered (the
cleanup only removes the script element from the head). -/
theorem unmount_leaves_widget_and_handler
    : (cleanupEffect
        (fireOnload true (mountEffect true tsInit instInit).1
          (mountEffect true tsInit instInit).2).1
        (fireOnload true (mountEffect true tsInit instInit).1
          (mountEffect true tsInit instInit).2).2).1.liveWidgets = [0] ∧
      ¬ (cleanupEffect
        (fireOnload true (mountEffect true tsInit instInit).1
          (mountEffect true tsInit instInit).2).1
        (fireOnload true (mountEffect true tsInit instInit).1
          (mountEffect true tsInit instInit).2).2).1.liveWidgets = [] ∧
      (cleanupEffect
        (fireOnload true (mountEffect true tsInit instInit).1
          (mountEffect true tsInit instInit).2).1
        (fireOnload true (mountEffect true tsInit instInit).1
          (mountEffect true tsInit instInit).2).2).1.onloadActive = [0] := by
  decide

/-- C6 amended: the cleanup only removes the injected script element from
the head — it neither deregisters the `onload` handler nor removes a
rendered widget, and it leaves the instance state untouched; the load
callback nevertheless never renders into a detached container, because its
body is guarded on `containerRef.current` being non-null. -/
theorem unmount_scope (st : TSState) (inst : TSInstance) (avail : Bool) :
    (cleanupEffect st inst).1.onloadActive = st.onloadActive ∧
    (cleanupEffect st inst).1.liveWidgets = st.liveWidgets ∧
    (cleanupEffect st inst).2 = inst ∧
    (inst.containerPresent = false → fireOnload avail st inst = (st, inst)) := by
  have h1 : (cleanupEffect st inst).1.onloadActive = st.onloadActive := by
    unfold cleanupEffect
    cases inst.script with
    | none => rfl
    | some s => by_cases hm : s ∈ st.head <;> simp [hm]
  have h2 : (cleanupEffect st inst).1.liveWidgets = st.liveWidgets := by
    unfold cleanupEffect
    cases inst.script with
    | none => rfl
    | some s => by_cases hm : s ∈ st.head <;> simp [hm]
  have h3 : (cleanupEffect st inst).2 = inst := by
    unfold cleanupEffect
    cases inst.script with
    | none => rfl
    | some s => by_cases hm : s ∈ st.head <;> simp [hm]
  refine ⟨h1, h2, h3, fun h => ?_⟩
  simp [fireOnload, h]

/-- Witness for C6 amended: a loaded page with one rendered widget whose
instance is already detached; the cleanup leaves handler and widget in
place, and firing the callback on the detached instance is a no-op. -/
theorem unmount_scope_witness :
    (cleanupEffect ⟨[0], [0], [0], 1, 1⟩ ⟨false, some 0, some 0⟩).1.onloadActive = [0] ∧
    (cleanupEffect ⟨[0], [0], [0], 1, 1⟩ ⟨false, some 0, some 0⟩).1.liveWidgets = [0] ∧
    (cleanupEffect ⟨[0], [0], [0], 1, 1⟩ ⟨false, some 0, some 0⟩).2 = ⟨false, some 0, some 0⟩ ∧
    fireOnload true ⟨[0], [0], [0], 1, 1⟩ ⟨false, some 0, some 0⟩
      = (⟨[0], [0], [0], 1, 1⟩, ⟨false, some 0, some 0⟩) := by
  have h := unmount_scope ⟨[0], [0], [0], 1, 1⟩ ⟨false, some 0, some 0⟩ true
  exact ⟨h.1, h.2.1, h.2.2.1, h.2.2.2 rfl⟩

/-- C7 counterexample: an instance that has already rendered (its
`widgetIdRef` holds handle 7) is NOT stopped from rendering again — the
`onload` body checks only the container and the loader, so the claimed
already-rendered and empty-container guards do not exist. -/
theorem render_guards_not_four
    : (fireOnload true tsInit ⟨true, some 7, some 0⟩).1.liveWidgets = [0] ∧
      ¬ fireOnload true tsInit ⟨true, some 7, some 0⟩ = (tsInit, ⟨true, some 7, some 0⟩) := by
  decide

/-- C7 amended: the render attempt is guarded by exactly two conditions —
container element present and loader object available.  If either fails the
attempt is a silent no-op; if both hold a widget is created, regardless of
any earlier render. -/
theorem render_guards_two (st : TSState) (inst : TSInstance) (avail : Bool) :
    (¬ (inst.containerPresent = true ∧ avail = true) →
      fireOnload avail st inst = (st, inst)) ∧
    (inst.containerPresent = true → avail = true →
      (fireOnload avail st inst).1.liveWidgets.length = st.liveWidgets.length + 1) := by
  constructor
  · intro h
    have hb : (inst.containerPresent && avail) = false := by
      cases hc : inst.containerPresent <;> cases ha : avail <;> simp_all
    simp [fireOnload, hb]
  · intro h1 h2
    simp [fireOnload, h1, h2]

/-- Witness for C7 amended: a detached instance is a silent no-op; an
attached one with the loader available gains one widget. -/
theorem render_guards_two_witness :
    fireOnload true tsInit ⟨false, none, none⟩ = (tsInit, ⟨false, none, none⟩) ∧
    (fireOnload true tsInit instInit).1.liveWidgets.length = 1 := by
  refine ⟨(render_guards_two tsInit ⟨false, none, none⟩ true).1 (by simp), ?_⟩
  have h := (render_guards_two tsInit instInit true).2 rfl rfl
  simpa using h

/-- C8: with no site key configured the widget effect is disabled (no script
is injected) and a rate-limit-allowed submission with a configured webhook
proceeds without a token; with a site key configured and no token present,
submission stops at `verificationIncomplete` — the webhook branch is never
reached. -/
theorem submit_verification_gate (cfg : SubmitConfig) (m : RateLimitMap)
    (clientId : String) (now : Int) (tok : Option String)
    (st : TSState) (inst : TSInstance)
    (hAllowed : (checkRateLimit m clientId now).1.allowed = true) :
    (jsTruthy cfg.turnstileSiteKey = false →
      mountEffect (jsTruthy cfg.turnstileSiteKey) st inst = (st, inst) ∧
      (jsTruthy cfg.webhookUrl = true → jsTruthy cfg.webhookSecret = true →
        (onSubmitGate cfg m clientId now none).1 = SubmitOutcome.proceed false)) ∧
    (jsTruthy cfg.turnstileSiteKey = true → tokenTruthy tok = false →
      (onSubmitGate cfg m clientId now tok).1 = SubmitOutcome.verificationIncomplete) := by
  constructor
  · intro hsk
    refine ⟨by simp [mountEffect, hsk], fun hu hs => ?_⟩
    simp [onSubmitGate, hAllowed, hsk, hu, hs, tokenTruthy]
  · intro hsk htok
    simp [onSubmitGate, hAllowed, hsk, htok]

/-- Witness for C8: an allowed client with an unconfigured site key proceeds
without a token; with site key `sitekey` and no token the outcome is
`verificationIncomplete`. -/
theorem submit_verification_gate_witness :
    (checkRateLimit emptyRateLimitMap "client" 0).1.allowed = true ∧
    mountEffect (jsTruthy "") tsInit instInit = (tsInit, instInit) ∧
    (onSubmitGate ⟨"", "https://hook.example", "s3cret"⟩ emptyRateLimitMap "client" 0
      none).1 = SubmitOutcome.proceed false ∧
    (onSubmitGate ⟨"sitekey", "https://hook.example", "s3cret"⟩ emptyRateLimitMap "client" 0
      none).1 = SubmitOutcome.verificationIncomplete := by
  have hA : (checkRateLimit emptyRateLimitMap "client" 0).1.allowed = true := rfl
  have h1 := submit_verification_gate ⟨"", "https://hook.example", "s3cret"⟩
    emptyRateLimitMap "client" 0 none tsInit instInit hA
  have h2 := submit_verification_gate ⟨"sitekey", "https://hook.example", "s3cret"⟩
    emptyRateLimitMap "client" 0 none tsInit instInit hA
  exact ⟨hA, (h1.1 (by decide)).1, (h1.1 (by decide)).2 (by decide) (by decide),
    h2.2 (by decide) rfl⟩
